import Mathlib

/-!
Verification of the AccessManagerPro authentication state container
(src/src/App.tsx): the reducer over AuthState, its action set, and the
login / register / logout operations together with the session
synchronizer. External calls (identity provider, profile store) are
embedded as explicit outcome parameters; each operation is a pure
function from those outcomes to the list of dispatched actions, the
emitted toast notifications, the rows passed to insert, the number of
compensating sign-out calls, and the operation's own result.
-/

namespace AccessManagerPro

/-- A permission record, as used in App.tsx. -/
structure Permission where
  id : String
  name : String
  description : String
  resource : String
  action : String
deriving DecidableEq

/-- A role record; a role carries its own nested permission list. -/
structure Role where
  id : String
  name : String
  description : String
  permissions : List Permission
deriving DecidableEq

/-- The normalized user record held in AuthState and built by the
session synchronizer (App.tsx lines 99-108). Timestamps are modelled
as natural numbers. -/
structure User where
  id : String
  email : String
  firstName : String
  lastName : String
  roles : List Role
  permissions : List Permission
  createdAt : Nat
  updatedAt : Nat
deriving DecidableEq

/-- The four-field authentication state. -/
structure AuthState where
  user : Option User
  isAuthenticated : Bool
  isLoading : Bool
  error : Option String
deriving DecidableEq

/-- `initialState` (App.tsx lines 35-40). -/
def initialState : AuthState :=
  { user := none, isAuthenticated := false, isLoading := true, error := none }

/-- The AuthAction union (App.tsx lines 42-48); the merged string-literal
cases of the TypeScript union are kept as separate constructors. -/
inductive AuthAction where
  | loginStart
  | registerStart
  | loginSuccess (payload : User)
  | registerSuccess (payload : User)
  | loginError (payload : String)
  | registerError (payload : String)
  | logout
  | updateUser (payload : User)
  | setLoading (payload : Bool)
deriving DecidableEq

/-- `authReducer` (App.tsx lines 50-82), case for case. The TypeScript
`default` branch is unreachable because the action union is closed. -/
def authReducer (state : AuthState) (a : AuthAction) : AuthState :=
  match a with
  | AuthAction.loginStart | AuthAction.registerStart =>
      { state with isLoading := true, error := none }
  | AuthAction.loginSuccess u | AuthAction.registerSuccess u =>
      { state with isLoading := false, isAuthenticated := true,
                   user := some u, error := none }
  | AuthAction.loginError m | AuthAction.registerError m =>
      { state with isLoading := false, isAuthenticated := false,
                   user := none, error := some m }
  | AuthAction.logout => { initialState with isLoading := false }
  | AuthAction.updateUser u => { state with user := some u }
  | AuthAction.setLoading b => { state with isLoading := b }

/-- Sequential application of dispatched actions to a state. -/
def applyActions (s : AuthState) (actions : List AuthAction) : AuthState :=
  actions.foldl authReducer s

/-- A failure value produced by the external identity provider or the
profile store; the code only inspects its `message` field. -/
structure ProviderError where
  message : String
deriving DecidableEq

/-- A transient toast notification. -/
inductive Toast where
  | success (msg : String)
  | error (msg : String)
deriving DecidableEq

/-- `login` (App.tsx lines 121-135): dispatches LOGIN_START, then awaits
the provider's credential check. `none` models a resolving call, `some e`
a credential failure. On failure the catch dispatches LOGIN_ERROR with
the fixed string and rethrows the provider's error. -/
def login (signInResult : Option ProviderError) :
    List AuthAction × Except ProviderError Unit :=
  match signInResult with
  | none => ([AuthAction.loginStart], Except.ok ())
  | some e =>
      ([AuthAction.loginStart, AuthAction.loginError "Invalid credentials"],
       Except.error e)

/-- The RegisterCredentials argument of `register`. -/
structure RegisterCredentials where
  email : String
  password : String
  firstName : String
  lastName : String
deriving DecidableEq

/-- The identity handle in signUp's `data.user`. -/
structure AuthUser where
  id : String
  email : String
deriving DecidableEq

/-- The object literal passed to `profiles.insert` (App.tsx lines
165-174); timestamps are absent because the store defaults them. -/
structure NewProfile where
  id : String
  first_name : String
  last_name : String
  email : String
  roles : List Role
  permissions : List Permission
deriving DecidableEq

/-- A `profiles` row as fetched by the session synchronizer; `roles` and
`permissions` may be absent, matching the handler's `|| []` defaulting. -/
structure ProfileRow where
  id : String
  first_name : String
  last_name : String
  email : String
  roles : Option (List Role)
  permissions : Option (List Permission)
  created_at : Nat
  updated_at : Nat
deriving DecidableEq

/-- The three distinct failures `register`'s try block can raise. -/
inductive RegisterFailure where
  | signUpFailure (e : ProviderError)
  | noUserData
  | profileFailure (e : ProviderError)
deriving DecidableEq

/-- The `.message` read by register's catch clause. -/
def RegisterFailure.message : RegisterFailure → String
  | RegisterFailure.signUpFailure e => e.message
  | RegisterFailure.noUserData => "No user data returned from signup"
  | RegisterFailure.profileFailure e => e.message

/-- JavaScript `m || fb` on strings: the empty string is falsy. -/
def strOr (m fb : String) : String := if m = "" then fb else m

/-- The default role seeded into a new profile (App.tsx line 171). -/
def defaultRole : Role :=
  { id := "1", name := "USER", description := "Regular user", permissions := [] }

/-- The default permission seeded into a new profile (App.tsx line 172). -/
def defaultPermission : Permission :=
  { id := "1", name := "READ", description := "Read access",
    resource := "*", action := "read" }

/-- All observable effects of one `register` call. -/
structure RegisterResult where
  dispatched : List AuthAction
  toasts : List Toast
  insertCalls : List NewProfile
  signOutCalls : Nat
  result : Except RegisterFailure Unit

/-- `register` (App.tsx lines 137-190). `signUpResult` models
`supabase.auth.signUp` (`Except.error e` a sign-up failure, `Except.ok
none` success with no `data.user`, `Except.ok (some u)` success);
`insertResult` models `profiles.insert` (`some e` a failure). The catch
clause (lines 184-189) dispatches REGISTER_ERROR with
`error.message || 'Registration failed'`, toasts it, and rethrows. -/
def register (credentials : RegisterCredentials)
    (signUpResult : Except ProviderError (Option AuthUser))
    (insertResult : Option ProviderError) : RegisterResult :=
  match signUpResult with
  | Except.error e =>
      let msg := strOr (RegisterFailure.signUpFailure e).message "Registration failed"
      { dispatched := [AuthAction.registerStart, AuthAction.registerError msg],
        toasts := [Toast.error msg],
        insertCalls := [],
        signOutCalls := 0,
        result := Except.error (RegisterFailure.signUpFailure e) }
  | Except.ok none =>
      let msg := strOr RegisterFailure.noUserData.message "Registration failed"
      { dispatched := [AuthAction.registerStart, AuthAction.registerError msg],
        toasts := [Toast.error msg],
        insertCalls := [],
        signOutCalls := 0,
        result := Except.error RegisterFailure.noUserData }
  | Except.ok (some u) =>
      let row : NewProfile :=
        { id := u.id,
          first_name := credentials.firstName,
          last_name := credentials.lastName,
          email := credentials.email,
          roles := [defaultRole],
          permissions := [defaultPermission] }
      match insertResult with
      | some e =>
          let msg := strOr (RegisterFailure.profileFailure e).message "Registration failed"
          { dispatched := [AuthAction.registerStart, AuthAction.registerError msg],
            toasts := [Toast.error msg],
            insertCalls := [row],
            signOutCalls := 1,
            result := Except.error (RegisterFailure.profileFailure e) }
      | none =>
          { dispatched := [AuthAction.registerStart],
            toasts := [Toast.success "Registration successful! You can now log in."],
            insertCalls := [row],
            signOutCalls := 0,
            result := Except.ok () }

/-- All observable effects of one `logout` call. -/
structure LogoutResult where
  dispatched : List AuthAction
  toasts : List Toast

/-- `logout` (App.tsx lines 192-200): `none` models the provider's
sign-out resolving, `some e` it rejecting, in which case the catch emits
only the failure toast and no action is dispatched. -/
def logout (signOutResult : Option ProviderError) : LogoutResult :=
  match signOutResult with
  | none =>
      { dispatched := [AuthAction.logout],
        toasts := [Toast.success "Successfully logged out"] }
  | some _ =>
      { dispatched := [],
        toasts := [Toast.error "Failed to log out"] }

/-- A provider session as seen by the synchronizer. -/
structure Session where
  userId : String
  userEmail : String

/-- The onAuthStateChange handler (App.tsx lines 90-114): with a present
session it fetches the profile row and, only if one is found, dispatches
LOGIN_SUCCESS with the projected user; with an absent session it
dispatches LOGOUT. -/
def onAuthStateChange (session : Option Session)
    (fetchProfile : String → Option ProfileRow) : List AuthAction :=
  match session with
  | some s =>
      match fetchProfile s.userId with
      | some profile =>
          [AuthAction.loginSuccess
            { id := s.userId,
              email := s.userEmail,
              firstName := profile.first_name,
              lastName := profile.last_name,
              roles := profile.roles.getD [],
              permissions := profile.permissions.getD [],
              createdAt := profile.created_at,
              updatedAt := profile.updated_at }]
      | none => []
  | none => [AuthAction.logout]

/-- Characterization of the `error` field across one transition: start,
success and logout transitions clear it, error transitions overwrite it,
update-user and set-loading retain it. -/
def errorAfter (e : Option String) : AuthAction → Option String
  | AuthAction.loginStart | AuthAction.registerStart => none
  | AuthAction.loginSuccess _ | AuthAction.registerSuccess _ => none
  | AuthAction.loginError m | AuthAction.registerError m => some m
  | AuthAction.logout => none
  | AuthAction.updateUser _ => e
  | AuthAction.setLoading _ => e

/-- A concrete user record used to instantiate universally quantified
statements. -/
def sampleUser : User :=
  { id := "u1", email := "a@x.com", firstName := "A", lastName := "B",
    roles := [], permissions := [], createdAt := 0, updatedAt := 0 }

/-- A concrete credentials record. -/
def sampleCredentials : RegisterCredentials :=
  { email := "a@x.com", password := "pw", firstName := "A", lastName := "B" }

/-- A concrete identity handle. -/
def sampleAuthUser : AuthUser := { id := "u1", email := "a@x.com" }

/-- A concrete session. -/
def sampleSession : Session := { userId := "u1", userEmail := "a@x.com" }

/-- One reducer step preserves the invariant that an authenticated state
carries a user record. -/
theorem authReducer_step_not_torn (s : AuthState) (a : AuthAction)
    (h : s.isAuthenticated = true → s.user ≠ none) :
    (authReducer s a).isAuthenticated = true → (authReducer s a).user ≠ none := by
  cases a <;> simp_all [authReducer, initialState]

/-- Any action sequence preserves the invariant that an authenticated
state carries a user record. -/
theorem applyActions_not_torn (s : AuthState) (actions : List AuthAction)
    (h : s.isAuthenticated = true → s.user ≠ none) :
    (applyActions s actions).isAuthenticated = true →
      (applyActions s actions).user ≠ none := by
  induction actions generalizing s with
  | nil => exact h
  | cons a rest ih => exact ih (authReducer s a) (authReducer_step_not_torn s a h)

/-- Claim C1: for every sequence of transitions applied from the initial
state, the reachable state is never torn; in particular no reachable
state has isAuthenticated=true with the user record absent. -/
theorem reachable_state_never_torn (actions : List AuthAction)
    (h : (applyActions initialState actions).isAuthenticated = true) :
    (applyActions initialState actions).user ≠ none :=
  applyActions_not_torn initialState actions (by simp [initialState]) h

/-- Witness for C1: after a login-success transition the state is
authenticated and, as the theorem asserts, its user is present. -/
theorem reachable_state_never_torn_witness :
    (applyActions initialState [AuthAction.loginSuccess sampleUser]).isAuthenticated = true ∧
    (applyActions initialState [AuthAction.loginSuccess sampleUser]).user ≠ none :=
  ⟨rfl, reachable_state_never_torn [AuthAction.loginSuccess sampleUser] rfl⟩

/-- Claim C2: from every prior state, a login-error or register-error
transition with message m yields isLoading=false, isAuthenticated=false,
user absent and error=m. -/
theorem error_transition_state (s : AuthState) (m : String) :
    authReducer s (AuthAction.loginError m) =
      { user := none, isAuthenticated := false, isLoading := false,
        error := some m } ∧
    authReducer s (AuthAction.registerError m) =
      { user := none, isAuthenticated := false, isLoading := false,
        error := some m } :=
  ⟨rfl, rfl⟩

/-- Claim C3: from every prior state, the logout transition yields
exactly the initial state except with isLoading=false. -/
theorem logout_transition_state (s : AuthState) :
    authReducer s AuthAction.logout = { initialState with isLoading := false } ∧
    authReducer s AuthAction.logout =
      { user := none, isAuthenticated := false, isLoading := false,
        error := none } :=
  ⟨rfl, rfl⟩

/-- Claim C4: whenever the provider's credential verification fails,
login dispatches LOGIN_START then LOGIN_ERROR with exactly the fixed
string "Invalid credentials", independent of the provider's error
detail, and rejects with the provider's failure itself. -/
theorem login_provider_failure (e : ProviderError) :
    login (some e) =
      ([AuthAction.loginStart, AuthAction.loginError "Invalid credentials"],
       Except.error e) :=
  rfl

/-- Claim C5: on the fully successful register path the inserted profile
row seeds roles with the single default USER role and permissions with
the single default READ entry (resource "*", action "read"), a success
toast is emitted, and register dispatches no success transition: the
only dispatched action is REGISTER_START, which leaves isAuthenticated
unchanged from any prior state. -/
theorem register_success_seeds_defaults (credentials : RegisterCredentials)
    (u : AuthUser) :
    (register credentials (Except.ok (some u)) none).insertCalls =
      [{ id := u.id, first_name := credentials.firstName,
         last_name := credentials.lastName, email := credentials.email,
         roles := [defaultRole], permissions := [defaultPermission] }] ∧
    defaultRole.name = "USER" ∧
    defaultPermission.name = "READ" ∧
    defaultPermission.resource = "*" ∧
    defaultPermission.action = "read" ∧
    (register credentials (Except.ok (some u)) none).toasts =
      [Toast.success "Registration successful! You can now log in."] ∧
    (register credentials (Except.ok (some u)) none).dispatched =
      [AuthAction.registerStart] ∧
    ∀ s : AuthState,
      (applyActions s
        (register credentials (Except.ok (some u)) none).dispatched).isAuthenticated =
        s.isAuthenticated :=
  ⟨rfl, rfl, rfl, rfl, rfl, rfl, rfl, fun _ => rfl⟩

/-- Counterexample to C6 as stated: when the insertion failure's message
is the empty string, register dispatches REGISTER_ERROR with the
fallback "Registration failed", which differs from the insertion
failure's message. -/
theorem register_error_message_counterexample :
    (register sampleCredentials (Except.ok (some sampleAuthUser))
        (some { message := "" })).dispatched =
      [AuthAction.registerStart, AuthAction.registerError "Registration failed"] ∧
    "Registration failed" ≠ "" :=
  ⟨rfl, by decide⟩

/-- Claim C6 (amended): when sign-up succeeds but profile insertion
fails, register invokes the provider's sign-out exactly once, dispatches
REGISTER_ERROR carrying the insertion failure's message — or the
fallback "Registration failed" when that message is empty — and rejects
with the insertion failure itself. -/
theorem register_insert_failure_compensates (credentials : RegisterCredentials)
    (u : AuthUser) (e : ProviderError) :
    (register credentials (Except.ok (some u)) (some e)).signOutCalls = 1 ∧
    (register credentials (Except.ok (some u)) (some e)).dispatched =
      [AuthAction.registerStart,
       AuthAction.registerError (strOr e.message "Registration failed")] ∧
    (register credentials (Except.ok (some u)) (some e)).result =
      Except.error (RegisterFailure.profileFailure e) :=
  ⟨rfl, rfl, rfl⟩

/-- Claim C7: on provider sign-out success, logout dispatches the LOGOUT
transition and a success toast; on provider sign-out failure it emits
only the failure toast, dispatches nothing, and so leaves every prior
state entirely unchanged. -/
theorem logout_success_and_failure (e : ProviderError) :
    logout none =
      { dispatched := [AuthAction.logout],
        toasts := [Toast.success "Successfully logged out"] } ∧
    logout (some e) =
      { dispatched := [], toasts := [Toast.error "Failed to log out"] } ∧
    ∀ s : AuthState, applyActions s (logout (some e)).dispatched = s :=
  ⟨rfl, rfl, fun _ => rfl⟩

/-- Claim C8: when a session-present notification arrives and the
profile fetch yields no row for the session's identity, the handler
dispatches no action at all, so the state after handling it equals the
state before it, for every prior state. -/
theorem session_present_no_profile_no_transition (s : Session)
    (fetchProfile : String → Option ProfileRow) (prior : AuthState)
    (h : fetchProfile s.userId = none) :
    onAuthStateChange (some s) fetchProfile = [] ∧
    applyActions prior (onAuthStateChange (some s) fetchProfile) = prior := by
  have h1 : onAuthStateChange (some s) fetchProfile = [] := by
    simp [onAuthStateChange, h]
  refine ⟨h1, ?_⟩
  rw [h1]
  rfl

/-- Witness for C8: a fetch that returns no row leaves the initial state
unchanged by the notification. -/
theorem session_present_no_profile_no_transition_witness :
    (fun _ : String => (none : Option ProfileRow)) sampleSession.userId = none ∧
    applyActions initialState
      (onAuthStateChange (some sampleSession) (fun _ => none)) = initialState :=
  ⟨rfl,
   (session_present_no_profile_no_transition sampleSession
      (fun _ => none) initialState rfl).2⟩

/-- Counterexample to C9 as stated: an error set by a failed login is
removed by the logout transition, which is not a start-transition. -/
theorem error_cleared_by_logout_counterexample :
    (authReducer initialState (AuthAction.loginError "Invalid credentials")).error =
      some "Invalid credentials" ∧
    (authReducer
        (authReducer initialState (AuthAction.loginError "Invalid credentials"))
        AuthAction.logout).error = none :=
  ⟨rfl, rfl⟩

/-- Claim C9 (amended): an error message in AuthState.error is retained
across update-user and set-loading transitions, overwritten by error
transitions, and cleared exactly by the start, success and logout
transitions — not by start-transitions alone. -/
theorem error_field_evolution (s : AuthState) (a : AuthAction) :
    (authReducer s a).error = errorAfter s.error a := by
  cases a <;> rfl

/-- Claim C10: on the fully successful register path the only dispatched
action is REGISTER_START, register resolves successfully, and applying
its dispatched actions leaves isLoading=true from any prior state. -/
theorem register_success_leaves_loading (credentials : RegisterCredentials)
    (u : AuthUser) (s : AuthState) :
    (register credentials (Except.ok (some u)) none).dispatched =
      [AuthAction.registerStart] ∧
    (register credentials (Except.ok (some u)) none).result = Except.ok () ∧
    (applyActions s
      (register credentials (Except.ok (some u)) none).dispatched).isLoading = true :=
  ⟨rfl, rfl, rfl⟩

end AccessManagerPro
